import Mathlib

/-!
# Verification of the jwt-auth-example session layer

Shallow embedding of the token-validation core of the `jwt-auth-example`
repository (Rust) and proofs of the specification's claims about it.

Conventions of the embedding:
* Rust `u64` values (Unix epoch seconds, durations) are modeled as `Nat`.
  All arithmetic performed by the code on them is addition of a realistic
  epoch instant and a configured duration, far below `2^64`, so wrap-around
  is not modeled.
* `Uuid` values are modeled as opaque `Nat` identifiers.
* The ambient clock (`current_unix_epoch()`) becomes an explicit parameter:
  each call site of `current_unix_epoch()` in the Rust code corresponds to
  one explicit instant parameter here.
* The opaque cryptographic services (HMAC-SHA256 JWT signing, Argon2
  password hashing/verification) are passed in as abstract function
  parameters, as the spec directs (they are deterministic in the source).
* Fallible I/O boundaries (database, session store) are modeled by explicit
  state values and `Except` results.
-/

namespace JwtAuthExample

/-- `SessionData` from `configurations/src/session.rs`: the session record
stored in Redis, keyed by the session identifier. -/
structure SessionData where
  /-- ユーザーID (`Uuid`, modeled as an opaque `Nat`). -/
  user_id : Nat
  /-- アクセストークン. -/
  access_token : String
  /-- アクセストークン有効期限 (UNIX epoch seconds, `u64`). -/
  access_expiration : Nat
  /-- リフレッシュトークン. -/
  refresh_token : String
  /-- リフレッシュトークン有効期限 (UNIX epoch seconds, `u64`). -/
  refresh_expiration : Nat
deriving DecidableEq, Repr

/-- `TokenValidation` from `middlewares/src/lib.rs`: verdict of the token
validation state machine. -/
inductive TokenValidation where
  /-- 成功 -/
  | Succeed
  /-- リフレッシュを要求 -/
  | RequiredRefresh
  /-- 失敗 -/
  | Failure
deriving DecidableEq, Repr

/-- `inspect_token_by_session_data` from `middlewares/src/lib.rs`
(lines 167–196).  The Rust function reads the clock itself
(`let now = current_unix_epoch();`); here that single clock read is the
explicit parameter `now`.  String comparison is Rust `==` on `String`/`&str`,
i.e. exact equality. -/
def inspect_token_by_session_data (now : Nat) (session_data : SessionData)
    (access_token refresh_token : String) : TokenValidation :=
  -- リフレッシュトークンの有効期限が切れている場合は`失敗`を返却
  if session_data.refresh_expiration < now then
    TokenValidation.Failure
  -- アクセストークンが有効期限内か確認
  else if now ≤ session_data.access_expiration then
    -- アクセストークンが一致するか確認
    if session_data.access_token = access_token then
      TokenValidation.Succeed
    else
      TokenValidation.Failure
  -- リフレッシュトークンが一致するか確認
  else if session_data.refresh_token = refresh_token then
    TokenValidation.RequiredRefresh
  else
    TokenValidation.Failure

/-- `TokensSettings` from the configuration crate: the JWT signing key and
the two token lifetimes.  The durations are configured in seconds
(`ACCESS_TOKEN_SECONDS` / `REFRESH_TOKEN_SECONDS` environment values) and
consumed as `u64` seconds by `generate_session_data`, so they are `Nat`
here. -/
structure TokensSettings where
  /-- JWT生成鍵. -/
  secret_key : String
  /-- アクセストークンの有効秒数. -/
  access_token_duration : Nat
  /-- リフレッシュトークンの有効秒数. -/
  refresh_token_duration : Nat
deriving DecidableEq, Repr

/-- The opaque JWT signing service (`generate_jwt` in
`configurations/src/tokens.rs`, an HMAC-SHA256 over the claims
`sub = user_id`, `exp = expiration`): a deterministic function from
(user id, secret key, expiration) to a token string.  The Rust `Result`
error path only fires when HMAC key construction fails, which cannot happen
for HMAC-SHA256 (any key length is accepted), so the service is modeled as
total. -/
def SignFn : Type := Nat → String → Nat → String

/-- `generate_jwt_pair` from `configurations/src/tokens.rs`: signs one token
for the access expiration and one for the refresh expiration, same user id
and key. -/
def generate_jwt_pair (sign : SignFn) (user_id : Nat) (secret_key : String)
    (access_expiration refresh_expiration : Nat) : String × String :=
  (sign user_id secret_key access_expiration,
   sign user_id secret_key refresh_expiration)

/-- `generate_session_data` from `configurations/src/lib.rs` (lines 25–52).
The Rust function calls `current_unix_epoch()` exactly once
(`let base_epoch = current_unix_epoch();`) and derives both expirations from
that single snapshot; the snapshot is the explicit parameter `base_epoch`
here. -/
def generate_session_data (sign : SignFn) (base_epoch : Nat) (user_id : Nat)
    (token_settings : TokensSettings) : SessionData :=
  let access_expiration := base_epoch + token_settings.access_token_duration
  let refresh_expiration := base_epoch + token_settings.refresh_token_duration
  let pair := generate_jwt_pair sign user_id token_settings.secret_key
    access_expiration refresh_expiration
  { user_id := user_id
    access_token := pair.1
    access_expiration := access_expiration
    refresh_token := pair.2
    refresh_expiration := refresh_expiration }

/-- The `User` entity (`domains/src/models/users.rs`), restricted to the
fields the modeled operations consult: the id, the stored password hash and
the active flag.  The remaining fields (user name, email address,
`last_logged_in`, timestamps) are never read by the operations embedded
here. -/
structure User where
  id : Nat
  hashed_password : String
  is_active : Bool
deriving DecidableEq, Repr

/-- Cookie name constant from `configurations/src/session.rs`. -/
def ACCESS_TOKEN_COOKIE_NAME : String := "access_token"

/-- Cookie name constant from `configurations/src/session.rs`. -/
def REFRESH_TOKEN_COOKIE_NAME : String := "refresh_token"

/-- `get_tokens` from `middlewares/src/lib.rs` (lines 122–133): reads the
access-token and refresh-token cookies of the request and substitutes the
empty string for an absent cookie.  A request cookie is modeled as
`Option String` (`none` = cookie absent). -/
def get_tokens (access_cookie refresh_cookie : Option String) : String × String :=
  let access_token := match access_cookie with
    | some cookie => cookie
    | none => ""
  let refresh_token := match refresh_cookie with
    | some cookie => cookie
    | none => ""
  (access_token, refresh_token)

/-- Error responses the middleware can produce
(`actix_web::error::ErrorUnauthorized` / `ErrorInternalServerError`). -/
inductive MwError where
  | Unauthorized
  | InternalServerError
deriving DecidableEq, Repr

/-- An HTTP response as the middleware observes it: status, body, and the
list of `Set-Cookie` instructions (name, value) attached to it. -/
structure MwResponse where
  status : Nat
  body : String
  cookies : List (String × String)
deriving DecidableEq, Repr

/-- Observable side effects of one `JwtAuthMiddleware::call`, in program
order.  `MintSession` is the point where `generate_session_data` is invoked
(it reads the ambient clock and signs new tokens); `CallHandler` is the
await of the wrapped service; `StoreInsert` is `session.insert` (Redis
write); `AddTokenCookies` is the pair of `response.add_cookie` calls;
`SessionPurge` and `ClearTokenCookies` are the session-destruction effects
available in the codebase (`TypedSession::purge`,
`create_expired_token_cookies`) — the middleware itself never emits them. -/
inductive Effect where
  | MintSession (sd : SessionData)
  | CallHandler
  | StoreInsert (sd : SessionData)
  | AddTokenCookies (access_token refresh_token : String)
  | SessionPurge
  | ClearTokenCookies
deriving DecidableEq, Repr

instance : DecidableEq (Except MwError MwResponse) := fun x y =>
  match x, y with
  | Except.ok a, Except.ok b => decidable_of_iff (a = b) (by simp)
  | Except.error a, Except.error b => decidable_of_iff (a = b) (by simp)
  | Except.ok _, Except.error _ => isFalse (by simp)
  | Except.error _, Except.ok _ => isFalse (by simp)

/-- Result of one middleware call: the response (or error), the ordered
effect trace, and the session-store entry for this session identifier after
the call. -/
structure MwOutcome where
  result : Except MwError MwResponse
  trace : List Effect
  store : Option SessionData
deriving DecidableEq, Repr

/-- `JwtAuthMiddleware::call` from `middlewares/src/lib.rs` (lines 228–307),
with its environment made explicit:

* `now` is the `current_unix_epoch()` read inside
  `inspect_token_by_session_data`; `mint_epoch` is the later
  `current_unix_epoch()` read inside `generate_session_data` when rotation
  happens (both occur before the wrapped handler runs);
* `stored` is the session record `session.get()` returns for this request's
  session identifier (`none` = absent), and is also the store entry before
  the call;
* `access_cookie` / `refresh_cookie` are the request's token cookies;
* `lookup_user` is `get_user` (the user-repository read; `none` = the user
  no longer exists, which the code maps to `Unauthorized`);
* `handler` is the wrapped downstream service.

Settings/pool extraction and the store/serde error paths always succeed in
the model. -/
def jwt_auth_call (token_settings : TokensSettings) (sign : SignFn)
    (now mint_epoch : Nat) (stored : Option SessionData)
    (access_cookie refresh_cookie : Option String)
    (lookup_user : Nat → Option User) (handler : User → MwResponse) : MwOutcome :=
  match stored with
  -- セッションデータがない場合は、`401 Unauthorized`で応答
  | none => { result := Except.error MwError.Unauthorized, trace := [], store := none }
  | some session_data0 =>
    -- トークンを取得
    let tokens := get_tokens access_cookie refresh_cookie
    -- セッションデータと、クッキーに記録されていたトークンを評価
    let result := inspect_token_by_session_data now session_data0 tokens.1 tokens.2
    if result = TokenValidation.Failure then
      -- `401 Unauthorized`: the record is left in the store and no
      -- cookie-clearing instruction is produced.
      { result := Except.error MwError.Unauthorized, trace := [],
        store := some session_data0 }
    else
      -- トークンを更新する必要がある場合は、トークンを更新したセッションデータを作成
      -- (this happens here, before the user lookup and the handler).
      let session_data :=
        if result = TokenValidation.RequiredRefresh then
          generate_session_data sign mint_epoch session_data0.user_id token_settings
        else session_data0
      let mint_trace :=
        if result = TokenValidation.RequiredRefresh then
          [Effect.MintSession session_data]
        else []
      -- リクエストにユーザーをデータとして追加
      match lookup_user session_data.user_id with
      | none =>
        { result := Except.error MwError.Unauthorized, trace := mint_trace,
          store := some session_data0 }
      | some user =>
        -- 後続のミドルウェアなどにリクエストの処理を移譲
        let resp := handler user
        if result = TokenValidation.RequiredRefresh then
          -- Redisにセッションデータを登録して、トークンのクッキーを追加
          { result := Except.ok
              { status := resp.status, body := resp.body,
                cookies := resp.cookies ++
                  [(ACCESS_TOKEN_COOKIE_NAME, session_data.access_token),
                   (REFRESH_TOKEN_COOKIE_NAME, session_data.refresh_token)] }
            trace := mint_trace ++
              [Effect.CallHandler, Effect.StoreInsert session_data,
               Effect.AddTokenCookies session_data.access_token
                 session_data.refresh_token]
            store := some session_data }
        else
          { result := Except.ok resp, trace := mint_trace ++ [Effect.CallHandler],
            store := some session_data0 }

/-- `true` iff some `MintSession` effect occurs strictly before the first
`CallHandler` effect of the trace. -/
def mints_before_handler (trace : List Effect) : Bool :=
  (trace.takeWhile (fun e => !(e = Effect.CallHandler))).any
    (fun e => match e with
      | Effect.MintSession _ => true
      | _ => false)

/-- `AuthError` from `hashed-password/src/lib.rs` (also re-exported by the
configuration crate's password module): the error type of the opaque
password-verification service. -/
inductive AuthError where
  | InvalidCredentials (msg : String)
  | UnexpectedError (msg : String)
deriving DecidableEq, Repr

/-- The opaque Argon2 password-verification service
`verify_password(expected_hashed, raw_password)`: returns `ok ()` when the
raw password matches the stored PHC hash, `InvalidCredentials` when it does
not, `UnexpectedError` when the stored hash cannot be parsed. -/
def VerifyFn : Type := String → String → Except AuthError Unit

/-- `LoginError` from `usecases/src/accounts.rs`. -/
inductive LoginError where
  | UnexpectedError (msg : String)
  | InvalidCredentials
  | NotActive (user_id : Nat)
deriving DecidableEq, Repr

/-- `validate_credentials` from `usecases/src/accounts.rs` (lines 116–145):
fetch the user by email address, then verify the raw password against the
stored hash; a missing user and a failed verification both collapse into
`LoginError.InvalidCredentials`.  `get_by_email_address` is the repository
read (`Except.error` = database failure, `ok none` = no such user); the
blocking-task dispatch around `verify_password` is transparent here (a join
failure would be an `UnexpectedError`, not modeled). -/
def validate_credentials (get_by_email_address : String → Except String (Option User))
    (verify_password : VerifyFn) (email_address raw_password : String) :
    Except LoginError User :=
  -- Eメールアドレスからユーザーを取得
  match get_by_email_address email_address with
  | Except.error e => Except.error (LoginError.UnexpectedError e)
  | Except.ok none => Except.error LoginError.InvalidCredentials
  | Except.ok (some user) =>
    -- パスワードがユーザーに記録されているハッシュ化パスワードと一致するか確認
    match verify_password user.hashed_password raw_password with
    | Except.error (AuthError.InvalidCredentials _) =>
      Except.error LoginError.InvalidCredentials
    | Except.error (AuthError.UnexpectedError e) =>
      Except.error (LoginError.UnexpectedError e)
    | Except.ok _ => Except.ok user

/-- `ChangePasswordError` from `usecases/src/accounts.rs`. -/
inductive ChangePasswordError where
  | UnexpectedError (msg : String)
  | IncorrectCurrentPassword
  | NotFound (user_id : Nat)
deriving DecidableEq, Repr

/-- The state `change_password` touches: the users table restricted to the
stored password hash per user id, and whether the caller's session record is
still present in the session store. -/
structure AccountState where
  db : List (Nat × String)
  session_present : Bool
deriving DecidableEq, Repr

/-- `PgUserRepository::change_password`
(`infrastructures/src/repositories/users.rs`): `UPDATE users SET
hashed_password = $1 WHERE id = $2`; when no row is affected it returns the
user-not-found error (already mapped to `ChangePasswordError.NotFound` as
the use case does). -/
def repository_change_password (db : List (Nat × String)) (user_id : Nat)
    (hashed_password : String) : Except ChangePasswordError (List (Nat × String)) :=
  if (db.lookup user_id).isSome then
    Except.ok (db.map (fun entry =>
      if entry.1 = user_id then (entry.1, hashed_password) else entry))
  else
    Except.error (ChangePasswordError.NotFound user_id)

/-- `change_password` from `usecases/src/accounts.rs` (lines 231–272).
The source runs `verify_password` on the current password but binds the
whole result to `_`:

`let _ = spawn_blocking_with_tracing(move || verify_password(..)).await
  .map_err(|e| ChangePasswordError::UnexpectedError(e.into()))
  .map_err(|_| ChangePasswordError::IncorrectCurrentPassword)?;`

Only the outer task-join result passes through `?`; the inner verification
verdict (`Result<(), AuthError>`) is bound to `_` and discarded.  The model
mirrors this faithfully: the verification result is computed and dropped.
`hash` is the opaque Argon2 hashing service (`HashedPassword::new`). -/
def change_password (verify_password : VerifyFn) (hash : String → String)
    (user : User) (current_password new_password : String) (state : AccountState) :
    Except ChangePasswordError AccountState :=
  -- ユーザーの現在のパスワードが一致するか確認 — 検証結果は`let _ =`で破棄される
  let _ := verify_password user.hashed_password current_password
  -- パスワードを変更
  let hashed_password := hash new_password
  match repository_change_password state.db user.id hashed_password with
  | Except.error e => Except.error e
  | Except.ok db =>
    -- Redisからセッションデータを削除 (`session.purge()`)
    Except.ok { db := db, session_present := false }

/-- Concrete token settings for closed evaluations. -/
def sampleSettings : TokensSettings :=
  { secret_key := "k", access_token_duration := 300, refresh_token_duration := 3600 }

/-- Concrete deterministic signing service for closed evaluations. -/
def sampleSign : SignFn :=
  fun user_id _ expiration => "tok-" ++ toString user_id ++ "-" ++ toString expiration

/-- Concrete user for closed evaluations. -/
def sampleUser : User := { id := 7, hashed_password := "hash", is_active := true }

/-- Concrete downstream-handler response for closed evaluations. -/
def sampleHandlerResponse : MwResponse := { status := 200, body := "ok", cookies := [] }

/-- A session record whose access token is still live. -/
def liveAccessRecord : SessionData :=
  { user_id := 7, access_token := "good", access_expiration := 100,
    refresh_token := "r", refresh_expiration := 200 }

/-- A session record whose access token has expired but whose refresh token
is still live. -/
def expiredAccessRecord : SessionData :=
  { user_id := 7, access_token := "good", access_expiration := 10,
    refresh_token := "r", refresh_expiration := 200 }

end JwtAuthExample

namespace JwtAuthExample

/-- C1: an expired refresh token makes the state machine fail regardless of
the presented access token and of `access_expiration`. -/
theorem refresh_expired_always_failure (now : Nat) (session_data : SessionData)
    (access_token refresh_token : String)
    (h : session_data.refresh_expiration < now) :
    inspect_token_by_session_data now session_data access_token refresh_token =
      TokenValidation.Failure := by
  simp [inspect_token_by_session_data, h]

/-- Witness for C1 at a concrete input: `now = 101` is strictly past the
stored `refresh_expiration = 100`, and the verdict is `Failure` even though
the access token matches and `access_expiration` is far in the future. -/
theorem refresh_expired_always_failure_witness :
    (100 : Nat) < 101 ∧
    inspect_token_by_session_data 101
      { user_id := 1, access_token := "foo", access_expiration := 1000,
        refresh_token := "bar", refresh_expiration := 100 } "foo" "bar" =
      TokenValidation.Failure :=
  ⟨by decide,
   refresh_expired_always_failure 101
     { user_id := 1, access_token := "foo", access_expiration := 1000,
       refresh_token := "bar", refresh_expiration := 100 } "foo" "bar"
     (by decide)⟩

/-- C2: with a live refresh token and a live access token, the verdict is
`Succeed` exactly when the presented access token equals the stored one, and
`Failure` otherwise — for every presented refresh token. -/
theorem live_access_token_decides (now : Nat) (session_data : SessionData)
    (access_token refresh_token : String)
    (hr : now ≤ session_data.refresh_expiration)
    (ha : now ≤ session_data.access_expiration) :
    (access_token = session_data.access_token →
      inspect_token_by_session_data now session_data access_token refresh_token =
        TokenValidation.Succeed) ∧
    (access_token ≠ session_data.access_token →
      inspect_token_by_session_data now session_data access_token refresh_token =
        TokenValidation.Failure) := by
  have hr' : ¬ session_data.refresh_expiration < now := Nat.not_lt.mpr hr
  constructor
  · intro heq
    simp [inspect_token_by_session_data, hr', ha, heq]
  · intro hne
    have hne' : ¬ session_data.access_token = access_token := fun h => hne h.symm
    simp [inspect_token_by_session_data, hr', ha, hne']

/-- Witness for C2 at concrete inputs: at `now = 10` with both expirations at
100, the matching access token yields `Succeed` and a mismatching one yields
`Failure`. -/
theorem live_access_token_decides_witness :
    (10 : Nat) ≤ 100 ∧
    inspect_token_by_session_data 10
      { user_id := 1, access_token := "foo", access_expiration := 100,
        refresh_token := "bar", refresh_expiration := 100 } "foo" "anything" =
      TokenValidation.Succeed ∧
    inspect_token_by_session_data 10
      { user_id := 1, access_token := "foo", access_expiration := 100,
        refresh_token := "bar", refresh_expiration := 100 } "evil" "bar" =
      TokenValidation.Failure :=
  ⟨by decide,
   (live_access_token_decides 10
     { user_id := 1, access_token := "foo", access_expiration := 100,
       refresh_token := "bar", refresh_expiration := 100 } "foo" "anything"
     (by decide) (by decide)).1 (by decide),
   (live_access_token_decides 10
     { user_id := 1, access_token := "foo", access_expiration := 100,
       refresh_token := "bar", refresh_expiration := 100 } "evil" "bar"
     (by decide) (by decide)).2 (by decide)⟩

/-- C3: with the access token expired but the refresh token live, the verdict
is `RequiredRefresh` exactly when the presented refresh token equals the
stored one, and `Failure` otherwise — for every presented access token. -/
theorem expired_access_refresh_decides (now : Nat) (session_data : SessionData)
    (access_token refresh_token : String)
    (ha : session_data.access_expiration < now)
    (hr : now ≤ session_data.refresh_expiration) :
    (refresh_token = session_data.refresh_token →
      inspect_token_by_session_data now session_data access_token refresh_token =
        TokenValidation.RequiredRefresh) ∧
    (refresh_token ≠ session_data.refresh_token →
      inspect_token_by_session_data now session_data access_token refresh_token =
        TokenValidation.Failure) := by
  have hr' : ¬ session_data.refresh_expiration < now := Nat.not_lt.mpr hr
  have ha' : ¬ now ≤ session_data.access_expiration := Nat.not_le.mpr ha
  constructor
  · intro heq
    simp [inspect_token_by_session_data, hr', ha', heq]
  · intro hne
    have hne' : ¬ session_data.refresh_token = refresh_token := fun h => hne h.symm
    simp [inspect_token_by_session_data, hr', ha', hne']

/-- Witness for C3 at concrete inputs: at `now = 50` with
`access_expiration = 10 < 50 ≤ refresh_expiration = 100`, the matching
refresh token yields `RequiredRefresh` and a mismatching one yields
`Failure`. -/
theorem expired_access_refresh_decides_witness :
    (10 : Nat) < 50 ∧ (50 : Nat) ≤ 100 ∧
    inspect_token_by_session_data 50
      { user_id := 1, access_token := "foo", access_expiration := 10,
        refresh_token := "bar", refresh_expiration := 100 } "anything" "bar" =
      TokenValidation.RequiredRefresh ∧
    inspect_token_by_session_data 50
      { user_id := 1, access_token := "foo", access_expiration := 10,
        refresh_token := "bar", refresh_expiration := 100 } "foo" "evil" =
      TokenValidation.Failure :=
  ⟨by decide, by decide,
   (expired_access_refresh_decides 50
     { user_id := 1, access_token := "foo", access_expiration := 10,
       refresh_token := "bar", refresh_expiration := 100 } "anything" "bar"
     (by decide) (by decide)).1 (by decide),
   (expired_access_refresh_decides 50
     { user_id := 1, access_token := "foo", access_expiration := 10,
       refresh_token := "bar", refresh_expiration := 100 } "foo" "evil"
     (by decide) (by decide)).2 (by decide)⟩

/-- C6: round-trip — a session record minted by `generate_session_data` at
`base_epoch`, validated with its own access and refresh token strings at
`now = base_epoch`, always yields `Succeed` (for every signing service, user
id and token settings). -/
theorem mint_then_validate_succeeds (sign : SignFn) (base_epoch user_id : Nat)
    (token_settings : TokensSettings) :
    inspect_token_by_session_data base_epoch
      (generate_session_data sign base_epoch user_id token_settings)
      (generate_session_data sign base_epoch user_id token_settings).access_token
      (generate_session_data sign base_epoch user_id token_settings).refresh_token =
      TokenValidation.Succeed := by
  have h1 : ¬ (generate_session_data sign base_epoch user_id
      token_settings).refresh_expiration < base_epoch :=
    Nat.not_lt.mpr (Nat.le_add_right _ _)
  have h2 : base_epoch ≤ (generate_session_data sign base_epoch user_id
      token_settings).access_expiration :=
    Nat.le_add_right _ _
  simp [inspect_token_by_session_data, h1, h2]

/-- C7: records minted by `generate_session_data` satisfy
`access_expiration ≤ refresh_expiration` whenever the configured access
duration is less than the refresh duration, and both expirations are the
respective durations added to the one `base_epoch` snapshot. -/
theorem generated_expirations_invariant (sign : SignFn) (base_epoch user_id : Nat)
    (token_settings : TokensSettings)
    (h : token_settings.access_token_duration < token_settings.refresh_token_duration) :
    (generate_session_data sign base_epoch user_id token_settings).access_expiration =
      base_epoch + token_settings.access_token_duration ∧
    (generate_session_data sign base_epoch user_id token_settings).refresh_expiration =
      base_epoch + token_settings.refresh_token_duration ∧
    (generate_session_data sign base_epoch user_id token_settings).access_expiration ≤
      (generate_session_data sign base_epoch user_id token_settings).refresh_expiration := by
  refine ⟨rfl, rfl, ?_⟩
  exact Nat.add_le_add_left (Nat.le_of_lt h) base_epoch

/-- Witness for C7 at a concrete input: durations 300 < 3600 give
expirations `1000 + 300` and `1000 + 3600`, with the former ≤ the latter. -/
theorem generated_expirations_invariant_witness :
    (300 : Nat) < 3600 ∧
    ((generate_session_data (fun _ _ _ => "tok") 1000 7
        { secret_key := "k", access_token_duration := 300,
          refresh_token_duration := 3600 }).access_expiration = 1000 + 300 ∧
     (generate_session_data (fun _ _ _ => "tok") 1000 7
        { secret_key := "k", access_token_duration := 300,
          refresh_token_duration := 3600 }).refresh_expiration = 1000 + 3600 ∧
     (generate_session_data (fun _ _ _ => "tok") 1000 7
        { secret_key := "k", access_token_duration := 300,
          refresh_token_duration := 3600 }).access_expiration ≤
       (generate_session_data (fun _ _ _ => "tok") 1000 7
          { secret_key := "k", access_token_duration := 300,
            refresh_token_duration := 3600 }).refresh_expiration) :=
  ⟨by decide,
   generated_expirations_invariant (fun _ _ _ => "tok") 1000 7
     { secret_key := "k", access_token_duration := 300,
       refresh_token_duration := 3600 } (by decide)⟩

/-- C4 (evidence of the divergence): on a `Failure` verdict (here: presented
access token `"evil"` against stored `"good"` within its validity window) the
middleware rejects with `Unauthorized` before the wrapped handler runs
(`CallHandler` is not in the trace), but — contrary to the claim and to the
middleware's own module documentation — it performs no session-store purge
and emits no cookie-clearing instruction: the trace is empty and the stale
record is still in the store afterwards. -/
theorem failure_verdict_leaves_record_in_store :
    jwt_auth_call sampleSettings sampleSign 50 50 (some liveAccessRecord)
      (some "evil") (some "r") (fun _ => some sampleUser)
      (fun _ => sampleHandlerResponse) =
      { result := Except.error MwError.Unauthorized, trace := [],
        store := some liveAccessRecord } := rfl

/-- C5 (evidence of the bug): with a verifier that rejects the presented
current password, `change_password` nevertheless succeeds and overwrites the
stored hash — it never returns `IncorrectCurrentPassword`, because the
verification result is discarded (`let _ = ...`).  This contradicts the
claim and the repository's own integration test
`cannot_change_password_if_incorrect_current_password`. -/
theorem change_password_ignores_verification :
    change_password
      (fun _ _ => Except.error (AuthError.InvalidCredentials "mismatch"))
      (fun _ => "new-hash") sampleUser "wrong-password" "new-password"
      { db := [(7, "hash")], session_present := true } =
      Except.ok { db := [(7, "new-hash")], session_present := false } := rfl

/-- C8: login-failure indistinguishability — a run in which no user matches
the email and a run in which the user exists but password verification fails
both return exactly `LoginError.InvalidCredentials`, so the two runs are
indistinguishable by their result. -/
theorem login_failure_indistinguishable
    (get1 get2 : String → Except String (Option User))
    (verify1 verify2 : VerifyFn)
    (email1 email2 raw1 raw2 : String) (user : User) (msg : String)
    (h1 : get1 email1 = Except.ok none)
    (h2 : get2 email2 = Except.ok (some user))
    (h3 : verify2 user.hashed_password raw2 =
      Except.error (AuthError.InvalidCredentials msg)) :
    validate_credentials get1 verify1 email1 raw1 =
      Except.error LoginError.InvalidCredentials ∧
    validate_credentials get2 verify2 email2 raw2 =
      Except.error LoginError.InvalidCredentials ∧
    validate_credentials get1 verify1 email1 raw1 =
      validate_credentials get2 verify2 email2 raw2 := by
  refine ⟨?_, ?_, ?_⟩ <;> simp [validate_credentials, h1, h2, h3]

/-- Witness for C8 at concrete inputs: an email-not-found environment and a
wrong-password environment both produce `InvalidCredentials`, and the two
results are equal. -/
theorem login_failure_indistinguishable_witness :
    validate_credentials (fun _ => Except.ok none)
      (fun _ _ => Except.ok ()) "a@example.com" "pw1" =
      Except.error LoginError.InvalidCredentials ∧
    validate_credentials (fun _ => Except.ok (some sampleUser))
      (fun _ _ => Except.error (AuthError.InvalidCredentials "bad"))
      "b@example.com" "pw2" =
      Except.error LoginError.InvalidCredentials ∧
    validate_credentials (fun _ => Except.ok none)
      (fun _ _ => Except.ok ()) "a@example.com" "pw1" =
      validate_credentials (fun _ => Except.ok (some sampleUser))
        (fun _ _ => Except.error (AuthError.InvalidCredentials "bad"))
        "b@example.com" "pw2" :=
  login_failure_indistinguishable (fun _ => Except.ok none)
    (fun _ => Except.ok (some sampleUser)) (fun _ _ => Except.ok ())
    (fun _ _ => Except.error (AuthError.InvalidCredentials "bad"))
    "a@example.com" "b@example.com" "pw1" "pw2" sampleUser "bad" rfl rfl rfl

/-- C9 (counterexample): on a `RequiredRefresh` run, a `MintSession` effect
occurs strictly before the `CallHandler` effect — the middleware mints the
rotated session record (clock read + token signing) before invoking the
wrapped handler, refuting the claim that minting happens only after the
handler has produced its response. -/
theorem rotation_mint_precedes_handler :
    mints_before_handler
      (jwt_auth_call sampleSettings sampleSign 50 60 (some expiredAccessRecord)
        (some "stale") (some "r") (fun _ => some sampleUser)
        (fun _ => sampleHandlerResponse)).trace = true := rfl

/-- C9 (amended): on a `RequiredRefresh` verdict with a resolvable user, the
middleware mints the rotated record (preserving `user_id`) BEFORE invoking
the wrapped handler, then invokes the handler to completion, and only after
the handler's response persists the new record to the store (overwriting the
old one) and appends the two updated token cookies to the outgoing response,
leaving its status and body unchanged. -/
theorem required_refresh_rotation (token_settings : TokensSettings) (sign : SignFn)
    (now mint_epoch : Nat) (session_data0 : SessionData)
    (access_cookie refresh_cookie : Option String)
    (lookup_user : Nat → Option User) (handler : User → MwResponse) (user : User)
    (hv : inspect_token_by_session_data now session_data0
        (get_tokens access_cookie refresh_cookie).1
        (get_tokens access_cookie refresh_cookie).2 =
        TokenValidation.RequiredRefresh)
    (hu : lookup_user session_data0.user_id = some user) :
    (generate_session_data sign mint_epoch session_data0.user_id
        token_settings).user_id = session_data0.user_id ∧
    jwt_auth_call token_settings sign now mint_epoch (some session_data0)
        access_cookie refresh_cookie lookup_user handler =
      { result := Except.ok
          { status := (handler user).status
            body := (handler user).body
            cookies := (handler user).cookies ++
              [(ACCESS_TOKEN_COOKIE_NAME,
                (generate_session_data sign mint_epoch session_data0.user_id
                  token_settings).access_token),
               (REFRESH_TOKEN_COOKIE_NAME,
                (generate_session_data sign mint_epoch session_data0.user_id
                  token_settings).refresh_token)] }
        trace :=
          [Effect.MintSession
            (generate_session_data sign mint_epoch session_data0.user_id
              token_settings),
           Effect.CallHandler,
           Effect.StoreInsert
            (generate_session_data sign mint_epoch session_data0.user_id
              token_settings),
           Effect.AddTokenCookies
            (generate_session_data sign mint_epoch session_data0.user_id
              token_settings).access_token
            (generate_session_data sign mint_epoch session_data0.user_id
              token_settings).refresh_token]
        store := some (generate_session_data sign mint_epoch
          session_data0.user_id token_settings) } := by
  constructor
  · rfl
  · simp only [jwt_auth_call, hv]
    simp [generate_session_data, generate_jwt_pair, hu]

/-- Witness for C9's amended theorem at a concrete input: the rotated record
keeps the old record's `user_id`. -/
theorem required_refresh_rotation_witness :
    (generate_session_data sampleSign 60 expiredAccessRecord.user_id
      sampleSettings).user_id = expiredAccessRecord.user_id :=
  (required_refresh_rotation sampleSettings sampleSign 50 60 expiredAccessRecord
    (some "stale") (some "r") (fun _ => some sampleUser)
    (fun _ => sampleHandlerResponse) sampleUser (by decide) rfl).1

/-- If the state machine grants `Succeed`, the presented access token equals
the stored one. -/
theorem inspect_succeed_access_eq (now : Nat) (session_data : SessionData)
    (access_token refresh_token : String)
    (h : inspect_token_by_session_data now session_data access_token refresh_token =
      TokenValidation.Succeed) :
    session_data.access_token = access_token := by
  unfold inspect_token_by_session_data at h
  split at h
  · cases h
  · split at h
    · split at h
      · assumption
      · cases h
    · split at h <;> cases h

/-- If the state machine grants `RequiredRefresh`, the presented refresh
token equals the stored one. -/
theorem inspect_required_refresh_eq (now : Nat) (session_data : SessionData)
    (access_token refresh_token : String)
    (h : inspect_token_by_session_data now session_data access_token refresh_token =
      TokenValidation.RequiredRefresh) :
    session_data.refresh_token = refresh_token := by
  unfold inspect_token_by_session_data at h
  split at h
  · cases h
  · split at h
    · split at h <;> cases h
    · split at h
      · assumption
      · cases h

/-- C10: an absent access-token (resp. refresh-token) cookie is presented to
the state machine as the empty string, so a request lacking the relevant
cookie is granted `Succeed` (resp. `RequiredRefresh`) only when the
corresponding stored token string is itself empty. -/
theorem missing_cookie_presents_empty_string (now : Nat)
    (session_data : SessionData) (access_cookie refresh_cookie : Option String) :
    (get_tokens none refresh_cookie).1 = "" ∧
    (get_tokens access_cookie none).2 = "" ∧
    (inspect_token_by_session_data now session_data
        (get_tokens none refresh_cookie).1 (get_tokens none refresh_cookie).2 =
        TokenValidation.Succeed → session_data.access_token = "") ∧
    (inspect_token_by_session_data now session_data
        (get_tokens access_cookie none).1 (get_tokens access_cookie none).2 =
        TokenValidation.RequiredRefresh → session_data.refresh_token = "") := by
  refine ⟨rfl, rfl, ?_, ?_⟩
  · intro h
    exact inspect_succeed_access_eq now session_data _ _ h
  · intro h
    exact inspect_required_refresh_eq now session_data _ _ h

/-- Witness for C10 at concrete inputs: a record with an empty stored access
token is granted `Succeed` without an access cookie, and a record with an
empty stored refresh token is granted `RequiredRefresh` without a refresh
cookie; the theorem then yields the (empty) stored token strings. -/
theorem missing_cookie_presents_empty_string_witness :
    ({ user_id := 1, access_token := "", access_expiration := 10,
       refresh_token := "rt", refresh_expiration := 20 } : SessionData).access_token
      = "" ∧
    ({ user_id := 1, access_token := "at", access_expiration := 1,
       refresh_token := "", refresh_expiration := 20 } : SessionData).refresh_token
      = "" :=
  ⟨(missing_cookie_presents_empty_string 5
      { user_id := 1, access_token := "", access_expiration := 10,
        refresh_token := "rt", refresh_expiration := 20 } none (some "x")).2.2.1
      (by decide),
   (missing_cookie_presents_empty_string 5
      { user_id := 1, access_token := "at", access_expiration := 1,
        refresh_token := "", refresh_expiration := 20 } (some "y") none).2.2.2
      (by decide)⟩

end JwtAuthExample
